import Mathlib

/-! Verification of the `pyspark_app` ETL pipeline (`src/pyspark_app/main.py`).

The program is a thin orchestration layer over PySpark DataFrames. We embed
the DataFrame operations the pipeline actually calls as functions over an
explicit table type: a list of column names together with a list of rows,
each row a list of cell values positionally aligned with the columns.

Python exceptions are modelled as an error type carrying the message; a
function that logs at error severity additionally returns the list of
error-level log messages it emitted (info/debug logging is not observable
by any property we verify and is omitted). Reading a CSV file is abstracted
as a lookup in a `World` mapping paths to already-parsed tables; the YAML
configs are likewise fields of the `World` (their parsed contents).
-/

namespace PysparkApp

/-- A cell value of an inferred-schema CSV column: SQL NULL, integer or
string. Spark comparisons on NULL follow three-valued logic, which the
operations below encode (`Value.sqlEq`, `Value.isinB`). -/
inductive Value where
  | nullV : Value
  | intV : Int → Value
  | strV : String → Value
deriving DecidableEq

/-- Spark SQL equality as used in a join condition or filter: any comparison
with NULL is not-true, so the row is not kept. -/
def Value.sqlEq : Value → Value → Bool
  | .nullV, _ => false
  | _, .nullV => false
  | a, b => a == b

/-- Model of `Column.isin(values)`: NULL is never a member (the comparison yields
NULL, which a filter treats as false); otherwise list membership. -/
def Value.isinB (v : Value) (vs : List Value) : Bool :=
  match v with
  | .nullV => false
  | v => vs.contains v

/-- A PySpark DataFrame: named columns and rows of cells, the i-th cell of a
row belonging to the i-th column. Spark permits duplicate column names in a
schema (this matters for `withColumnRenamed` collisions). -/
structure DataFrame where
  columns : List String
  rows : List (List Value)
deriving DecidableEq

/-- Index of the attribute `DataFrame.__getattr__` resolves for `name`
(`df.country`, `df.id`): `none` when the name is not among the columns, in
which case Python raises `AttributeError`. -/
def DataFrame.colIdx (df : DataFrame) (name : String) : Option Nat :=
  df.columns.findIdx? (fun c => c == name)

/-- Cell of `row` in column position `i` (missing cells read as NULL). -/
def cell (row : List Value) (i : Nat) : Value :=
  row.getD i Value.nullV

/-- Python exceptions that the pipeline can raise or catch, with message.
`generic` is a plain `Exception(msg)` as raised by the re-wrapping
`except` blocks. -/
inductive PyError where
  | attributeError (m : String)
  | analysisException (m : String)
  | typeError (m : String)
  | generic (m : String)
deriving DecidableEq

/-- The message carried by the exception, as `str(e)` yields it. -/
def PyError.msg : PyError → String
  | .attributeError m => m
  | .analysisException m => m
  | .typeError m => m
  | .generic m => m

/-- Whether a result is a raised Spark `AnalysisException` (the only kind
the component-level `except AnalysisException` handlers catch; the spec
taxonomy names the one re-raised from `filter_data` a `FilterError`). -/
def isAnalysisException : Except PyError DataFrame → Bool
  | .error (.analysisException _) => true
  | _ => false

/-- Message of the `AttributeError` raised by `DataFrame.__getattr__` when
`clients_df.country` is accessed on a frame without that column. -/
def noCountryAttrMsg : String := "DataFrame object has no attribute country"

/-- Message of the `AttributeError` raised when `df.id` is accessed on a
frame without an `id` column. -/
def noIdAttrMsg : String := "DataFrame object has no attribute id"

/-- Model of `DataProcessor.filter_data(clients_df, countries)`
(main.py:103-126):

    result_data = clients_df.filter(clients_df.country.isin(countries))

`clients_df.country` raises `AttributeError` when `country` is absent
(PySpark `__getattr__`); that exception is NOT an `AnalysisException`, so
the surrounding `except AnalysisException` does not catch it and nothing is
logged by `filter_data`. When an `AnalysisException` does occur it is
logged and re-raised with a `Spark AnalysisException in filter_data:`
prefix. Returns the kept rows and the error-level log messages emitted. -/
def filter_data (clients_df : DataFrame) (countries : List String) :
    Except PyError DataFrame × List String :=
  let body : Except PyError DataFrame :=
    match clients_df.colIdx "country" with
    | none => .error (.attributeError noCountryAttrMsg)
    | some i =>
        .ok { columns := clients_df.columns,
              rows := clients_df.rows.filter
                (fun r => Value.isinB (cell r i) (countries.map Value.strV)) }
  match body with
  | .error (.analysisException m) =>
      let m2 := "Spark AnalysisException in filter_data: " ++ m
      (.error (.analysisException m2), [m2])
  | other => (other, [])

/-- Model of `DataProcessor.join_datasets(clients_df, financials_df)`
(main.py:163-186):

    result_data = clients_df.join(financials_df,
        clients_df.id == financials_df.id).drop(financials_df.id)

Inner equality join: output columns are the left columns followed by the
right columns; each left row is paired with every right row whose `id`
compares SQL-equal. `.drop(financials_df.id)` then removes exactly the
right side's `id` attribute (by reference, not by name). `df.id` raises
`AttributeError` when `id` is absent; an `AnalysisException` would be
logged and re-raised with a `join_datasets` prefix. -/
def join_datasets (clients_df financials_df : DataFrame) :
    Except PyError DataFrame × List String :=
  let body : Except PyError DataFrame :=
    match clients_df.colIdx "id" with
    | none => .error (.attributeError noIdAttrMsg)
    | some i =>
        match financials_df.colIdx "id" with
        | none => .error (.attributeError noIdAttrMsg)
        | some j =>
            .ok { columns := clients_df.columns ++ financials_df.columns.eraseIdx j,
                  rows := clients_df.rows.flatMap (fun l =>
                    (financials_df.rows.filter
                      (fun r => Value.sqlEq (cell l i) (cell r j))).map
                      (fun r => l ++ r.eraseIdx j)) }
  match body with
  | .error (.analysisException m) =>
      let m2 := "Spark AnalysisException in join_datasets: " ++ m
      (.error (.analysisException m2), [m2])
  | other => (other, [])

/-- One entry of `column_rename_config.yaml`'s `renamed_columns` list; a
YAML mapping may omit either key (`dict.get` returns `None`). -/
structure RenameEntry where
  original_name : Option String
  new_name : Option String
deriving DecidableEq

/-- Python truthiness of `rename_entry.get(...)`: `None` and the empty
string are falsy. -/
def pyTruthy : Option String → Bool
  | none => false
  | some s => !s.isEmpty

/-- Spark `DataFrame.withColumnRenamed(existing, new)`: renames every
output column whose name matches `existing` (no-op when none matches, no
error when `new` collides with another column — the schema then simply
contains duplicate names). Row data is untouched. -/
def withColumnRenamed (df : DataFrame) (existing new' : String) : DataFrame :=
  { columns := df.columns.map (fun c => if c = existing then new' else c),
    rows := df.rows }

/-- Model of `DataProcessor.rename_columns(data_df)` (main.py:140-161),
parameterised by
the parsed `renamed_columns` config list: entries are applied in order via
`withColumnRenamed`, and an entry whose `original_name` or `new_name` is
missing (or empty, by Python truthiness) is skipped. -/
def rename_columns (entries : List RenameEntry) (data_df : DataFrame) : DataFrame :=
  entries.foldl
    (fun acc e =>
      if pyTruthy e.original_name && pyTruthy e.new_name then
        withColumnRenamed acc (e.original_name.getD "") (e.new_name.getD "")
      else acc)
    data_df

/-- External inputs of one pipeline run: the CSV files reachable on disk
(path to already-parsed table; schema inference and delimiter handling are
the engine's and are abstracted), and the parsed contents of the two data
configs. `clients_columns` / `financials_columns` are the values of those
keys in `column_selection_config.yaml` (`none` = key absent);
`renamed_columns` is the list from `column_rename_config.yaml`. -/
structure World where
  files : List (String × DataFrame)
  clients_columns : Option (List String)
  financials_columns : Option (List String)
  renamed_columns : List RenameEntry
deriving DecidableEq

/-- Content of the file at `path`, `none` when the path does not exist. -/
def lookupFile (w : World) (path : String) : Option DataFrame :=
  (w.files.find? (fun kv => kv.1 == path)).map (fun kv => kv.2)

/-- Spark `df.select(selected_columns)`: projects to the named columns in
the given order; raises `AnalysisException` when a name cannot be
resolved. -/
def selectColumns (df : DataFrame) (selected : List String) :
    Except PyError DataFrame :=
  match selected.mapM (fun c => df.colIdx c) with
  | none => .error (.analysisException "cannot resolve column")
  | some idxs =>
      .ok { columns := selected,
            rows := df.rows.map (fun r => idxs.map (fun i => cell r i)) }

/-- Model of
`DataProcessor.read_csv_file(file_path, description, selected_columns)`
(main.py:243-279): reads the CSV (a missing path makes Spark raise
`AnalysisException: Path does not exist`), then projects to
`selected_columns` only when that list is truthy — `if selected_columns:`
— so an empty list (or `None`) keeps every column. Any exception is caught
by the blanket `except`, logged once at error severity, and re-raised as a
plain `Exception` with an `Error reading <description> file:` prefix. -/
def read_csv_file (w : World) (file_path description : String)
    (selected_columns : List String) : Except PyError DataFrame × List String :=
  let body : Except PyError DataFrame :=
    match lookupFile w file_path with
    | none => .error (.analysisException ("Path does not exist: " ++ file_path))
    | some df =>
        if selected_columns.isEmpty then .ok df
        else selectColumns df selected_columns
  match body with
  | .ok df => (.ok df, [])
  | .error e =>
      let m := "Error reading " ++ description ++ " file: " ++ e.msg
      (.error (.generic m), [m])

/-- Message of the `TypeError` raised by `result_data.drop("id", axis=1)`:
`pyspark.sql.DataFrame.drop(*cols)` takes only positional column
arguments, so the pandas-style `axis` keyword is rejected by the call
itself, before any column is dropped. -/
def dropAxisTypeErrorMsg : String :=
  "drop got an unexpected keyword argument axis"

/-- A call to `pyspark.sql.DataFrame.drop` with positional column names
`cols` and the names of any keyword arguments supplied at the call site.
The real signature accepts no keywords, so a non-empty `kwargs` raises
`TypeError`; otherwise every column whose name is in `cols` is removed
(cells included). -/
def dropCall (df : DataFrame) (cols : List String) (kwargs : List String) :
    Except PyError DataFrame :=
  if kwargs.isEmpty then
    .ok { columns := df.columns.filter (fun c => !cols.contains c),
          rows := df.rows.map (fun r =>
            ((df.columns.zip r).filter (fun p => !cols.contains p.1)).map
              (fun p => p.2)) }
  else .error (.typeError dropAxisTypeErrorMsg)

/-- The hardcoded output path of `save_to_file` in `process_data`
(main.py:327). -/
def result_path : String :=
  "F:/abn/pyspark_assignment/client_data/result_data.csv"

/-- Observable side effects of a `process_data` run: the error-severity
log messages in emission order, and the `save_to_file` calls (path and
dataset written). -/
structure Effects where
  errorLogs : List String
  writes : List (String × DataFrame)
deriving DecidableEq

/-- The try-block of `DataProcessor.process_data` (main.py:315-327) up to
(and including) the drop-`id` step: read clients (with the
`clients_columns` selection, defaulted to `[]` by `.get`), read
financials, filter by country, join, rename, and drop `id` via
`result_data.drop("id", axis=1)` when `"id" in result_data.columns`.
Returns the dataset to be written, or the first exception, together with
the error logs emitted so far. -/
def pipeline_body (w : World) (clients_file financials_file : String)
    (countries : List String) : Except PyError DataFrame × List String :=
  let (rc, l1) := read_csv_file w clients_file "Clients" (w.clients_columns.getD [])
  match rc with
  | .error e => (.error e, l1)
  | .ok clients =>
    let (rf, l2) := read_csv_file w financials_file "Financials"
        (w.financials_columns.getD [])
    match rf with
    | .error e => (.error e, l1 ++ l2)
    | .ok financials =>
      let (fd, l3) := filter_data clients countries
      match fd with
      | .error e => (.error e, l1 ++ l2 ++ l3)
      | .ok filtered =>
        let (jd, l4) := join_datasets filtered financials
        match jd with
        | .error e => (.error e, l1 ++ l2 ++ l3 ++ l4)
        | .ok joined =>
          let result_data := rename_columns w.renamed_columns joined
          let dropped :=
            if result_data.columns.contains "id" then
              dropCall result_data ["id"] ["axis"]
            else .ok result_data
          match dropped with
          | .error e => (.error e, l1 ++ l2 ++ l3 ++ l4)
          | .ok final => (.ok final, l1 ++ l2 ++ l3 ++ l4)

/-- Model of `DataProcessor.process_data` (main.py:302-334): runs
`pipeline_body` and on
success writes the result to the hardcoded `result_path` (`save_to_file`,
whose own failure modes are outside the modelled worlds). Any exception
escaping a stage is caught here: an `AnalysisException` is logged and
re-raised with a `Spark AnalysisException:` prefix, anything else is
logged and re-raised as `Exception("Unexpected error: ...")`. No write
happens on any failure. -/
def process_data (w : World) (clients_file financials_file : String)
    (countries : List String) : Except PyError Unit × Effects :=
  match pipeline_body w clients_file financials_file countries with
  | (.ok final, logs) =>
      (.ok (), { errorLogs := logs, writes := [(result_path, final)] })
  | (.error (.analysisException m), logs) =>
      let m2 := "Spark AnalysisException: " ++ m
      (.error (.analysisException m2), { errorLogs := logs ++ [m2], writes := [] })
  | (.error e, logs) =>
      let m2 := "Unexpected error: " ++ e.msg
      (.error (.generic m2), { errorLogs := logs ++ [m2], writes := [] })

/-! Concrete frames and worlds used to instantiate the theorems. -/

/-- A small clients table: columns `id`, `country`. -/
def dfClients : DataFrame :=
  ⟨["id", "country"],
   [[Value.intV 1, Value.strV "PL"], [Value.intV 2, Value.strV "GB"]]⟩

/-- A small financials table: columns `id`, `amount`. -/
def dfFinancials : DataFrame :=
  ⟨["id", "amount"],
   [[Value.intV 1, Value.intV 100], [Value.intV 2, Value.intV 200]]⟩

/-- A frame without a `country` column. -/
def dfNoCountry : DataFrame := ⟨["x"], [[Value.intV 1]]⟩

/-- A frame with two distinct columns `a` and `c`. -/
def dfAC : DataFrame := ⟨["a", "c"], [[Value.intV 1, Value.intV 2]]⟩

/-! Helper lemmas. -/

/-- The column-name substitution of `withColumnRenamed` is the identity
when the old name does not occur. -/
theorem map_subst_of_not_mem (l : List String) (o n : String) (h : o ∉ l) :
    l.map (fun c => if c = o then n else c) = l := by
  induction l with
  | nil => rfl
  | cons a t ih =>
      simp only [List.mem_cons, not_or] at h
      have ha : ¬ a = o := fun hc => h.1 hc.symm
      simp [ha, ih h.2]

/-- The rename `withColumnRenamed` is a no-op when the column is absent. -/
theorem withColumnRenamed_of_not_mem (df : DataFrame) (o n : String)
    (h : o ∉ df.columns) : withColumnRenamed df o n = df := by
  cases df with
  | mk cols rows => simp [withColumnRenamed, map_subst_of_not_mem cols o n h]

/-- Membership test `isin` against a list of string literals is plain membership (NULL is
never a member). -/
theorem isinB_strV (v : Value) (V : List String) :
    Value.isinB v (V.map Value.strV) = decide (v ∈ V.map Value.strV) := by
  cases v with
  | nullV =>
      have : Value.nullV ∉ V.map Value.strV := by simp
      simp [Value.isinB, this]
  | intV n => simp [Value.isinB, List.elem_iff]
  | strV s => simp [Value.isinB, List.elem_iff]

/-- Claim C8: applying `rename_columns` with an empty pair list returns the
input dataset unchanged. -/
theorem C8_rename_empty_identity (df : DataFrame) :
    rename_columns [] df = df := rfl

/-- Claim C10: a rename entry whose `original_name` is not a column of the
frame (and whose `new_name` is non-empty) is a silent no-op: the result
equals the input and no error is raised. -/
theorem C10_rename_missing_column_noop (df : DataFrame) (o n : String)
    (ho : o ∉ df.columns) (hn : n ≠ "") :
    rename_columns [⟨some o, some n⟩] df = df := by
  show (if pyTruthy (some o) && pyTruthy (some n) then
          withColumnRenamed df ((some o).getD "") ((some n).getD "") else df) = df
  split
  · exact withColumnRenamed_of_not_mem df o n ho
  · rfl

/-- Witness for C10. -/
theorem C10_witness :
    "b" ∉ dfClients.columns ∧ "c" ≠ ""
    ∧ rename_columns [⟨some "b", some "c"⟩] dfClients = dfClients :=
  ⟨by decide, by decide, C10_rename_missing_column_noop dfClients "b" "c" (by decide) (by decide)⟩

/-- Claim C4: a single rename pair `a → b`, with `a` a column and `b` not,
preserves the rows (count, values, order) and renames exactly the `a`
column to `b`, leaving every other column name untouched; entries missing
the `original_name` or the `new_name` field are skipped. -/
theorem C4_rename_single_pair (df : DataFrame) (a b : String)
    (ha : a ∈ df.columns) (hb : b ∉ df.columns) (hae : a ≠ "") (hbe : b ≠ "") :
    rename_columns [⟨some a, some b⟩] df =
      { columns := df.columns.map (fun c => if c = a then b else c),
        rows := df.rows }
    ∧ rename_columns [⟨none, some b⟩] df = df
    ∧ rename_columns [⟨some a, none⟩] df = df := by
  refine ⟨?_, rfl, ?_⟩
  · show (if pyTruthy (some a) && pyTruthy (some b) then
            withColumnRenamed df ((some a).getD "") ((some b).getD "") else df) = _
    have hta : pyTruthy (some a) = true := by
      show (!a.isEmpty) = true
      cases h : a.isEmpty with
      | false => rfl
      | true => exact absurd ((String.isEmpty_iff a).mp h) hae
    have htb : pyTruthy (some b) = true := by
      show (!b.isEmpty) = true
      cases h : b.isEmpty with
      | false => rfl
      | true => exact absurd ((String.isEmpty_iff b).mp h) hbe
    simp [hta, htb, withColumnRenamed]
  · show (if pyTruthy (some a) && pyTruthy none then
            withColumnRenamed df ((some a).getD "") ((none : Option String).getD "") else df) = df
    simp [pyTruthy]

/-- Witness for C4. -/
theorem C4_witness :
    "country" ∈ dfClients.columns ∧ "nation" ∉ dfClients.columns
    ∧ "country" ≠ "" ∧ "nation" ≠ ""
    ∧ (rename_columns [⟨some "country", some "nation"⟩] dfClients =
        { columns := dfClients.columns.map (fun c => if c = "country" then "nation" else c),
          rows := dfClients.rows }
       ∧ rename_columns [⟨none, some "nation"⟩] dfClients = dfClients
       ∧ rename_columns [⟨some "country", none⟩] dfClients = dfClients) :=
  ⟨by decide, by decide, by decide, by decide,
   C4_rename_single_pair dfClients "country" "nation"
     (by decide) (by decide) (by decide) (by decide)⟩

/-- Occurrence count of the collision target after the substitution done
by `withColumnRenamed a c`: every `a` becomes `c` and every existing `c`
stays, so the counts add. -/
theorem count_map_subst (l : List String) (a c : String) (hne : a ≠ c) :
    (l.map (fun x => if x = a then c else x)).count c = l.count a + l.count c := by
  induction l with
  | nil => rfl
  | cons x t ih =>
      by_cases hx : x = a
      · subst hx
        simp [List.count_cons, ih, hne, Ne.symm hne]
        omega
      · by_cases hc : x = c
        · subst hc
          simp [List.count_cons, hx, ih]
          omega
        · simp [List.count_cons, hx, hc, ih]

/-- Counterexample to claim C7 as stated: renaming `a → c` on a frame with
distinct columns `a` and `c` does not leave a single column named `c`; the
schema ends up with two columns named `c`. -/
theorem C7_counterexample :
    (rename_columns [⟨some "a", some "c"⟩] dfAC).columns = ["c", "c"]
    ∧ ¬ (rename_columns [⟨some "a", some "c"⟩] dfAC).columns.count "c" = 1 := by
  constructor
  · rfl
  · decide

/-- Claim C7 amended: applying the rename entry `a → c` on a frame that
already has a distinct column `c` raises no error and keeps the rows
unchanged, but the resulting schema contains the name `c` twice (the
renamed `a` column and the original `c`), not a single overwritten
column. -/
theorem C7_rename_collision_duplicates (df : DataFrame) (a c : String)
    (ha : a ∈ df.columns) (hc : c ∈ df.columns) (hne : a ≠ c)
    (hae : a ≠ "") (hce : c ≠ "") (hnd : df.columns.Nodup) :
    rename_columns [⟨some a, some c⟩] df =
      { columns := df.columns.map (fun x => if x = a then c else x),
        rows := df.rows }
    ∧ (rename_columns [⟨some a, some c⟩] df).columns.count c = 2 := by
  have hres : rename_columns [⟨some a, some c⟩] df =
      { columns := df.columns.map (fun x => if x = a then c else x),
        rows := df.rows } := by
    show (if pyTruthy (some a) && pyTruthy (some c) then
            withColumnRenamed df ((some a).getD "") ((some c).getD "") else df) = _
    have hta : pyTruthy (some a) = true := by
      show (!a.isEmpty) = true
      cases h : a.isEmpty with
      | false => rfl
      | true => exact absurd ((String.isEmpty_iff a).mp h) hae
    have htc : pyTruthy (some c) = true := by
      show (!c.isEmpty) = true
      cases h : c.isEmpty with
      | false => rfl
      | true => exact absurd ((String.isEmpty_iff c).mp h) hce
    simp [hta, htc, withColumnRenamed]
  refine ⟨hres, ?_⟩
  rw [hres]
  show (df.columns.map (fun x => if x = a then c else x)).count c = 2
  rw [count_map_subst df.columns a c hne,
      List.count_eq_one_of_mem hnd ha, List.count_eq_one_of_mem hnd hc]

/-- Witness for C7's amended theorem. -/
theorem C7_witness :
    "a" ∈ dfAC.columns ∧ "c" ∈ dfAC.columns ∧ "a" ≠ "c"
    ∧ "a" ≠ "" ∧ "c" ≠ "" ∧ dfAC.columns.Nodup
    ∧ (rename_columns [⟨some "a", some "c"⟩] dfAC =
        { columns := dfAC.columns.map (fun x => if x = "a" then "c" else x),
          rows := dfAC.rows }
       ∧ (rename_columns [⟨some "a", some "c"⟩] dfAC).columns.count "c" = 2) :=
  ⟨by decide, by decide, by decide, by decide, by decide, by decide,
   C7_rename_collision_duplicates dfAC "a" "c"
     (by decide) (by decide) (by decide) (by decide) (by decide) (by decide)⟩

/-- Claim C9: an empty column-selection list for a dataset behaves exactly
like an absent key — `read_csv_file` keeps every column of the source file
(`if selected_columns:` is false for `[]`), returning the full frame with
no error and no error log. -/
theorem C9_empty_selection_keeps_all (w : World) (p d : String) (df : DataFrame)
    (h : lookupFile w p = some df) (o : Option (List String))
    (ho : o = some [] ∨ o = none) :
    read_csv_file w p d (o.getD []) = (.ok df, []) := by
  rcases ho with ho | ho <;> subst ho <;> simp [read_csv_file, h]

/-- Witness for C9. -/
theorem C9_witness :
    lookupFile ⟨[("clients.csv", dfClients)], none, none, []⟩ "clients.csv"
      = some dfClients
    ∧ ((some ([] : List String)) = some [] ∨ (some ([] : List String)) = none)
    ∧ read_csv_file ⟨[("clients.csv", dfClients)], none, none, []⟩ "clients.csv"
        "Clients" ((some ([] : List String)).getD []) = (.ok dfClients, []) :=
  ⟨by decide, Or.inl rfl,
   C9_empty_selection_keeps_all ⟨[("clients.csv", dfClients)], none, none, []⟩
     "clients.csv" "Clients" dfClients (by decide) (some []) (Or.inl rfl)⟩

/-- Counterexample to claim C6 as stated: on a frame without a `country`
column, `filter_data` does fail, but with the `AttributeError` raised by
the `clients_df.country` access — not with the logged-and-rewrapped
`AnalysisException` that the spec taxonomy calls `FilterError` (the
`except AnalysisException` handler never fires and `filter_data` logs
nothing). -/
theorem C6_counterexample :
    (filter_data dfNoCountry ["PL"]).1
      = .error (.attributeError noCountryAttrMsg)
    ∧ isAnalysisException (filter_data dfNoCountry ["PL"]).1 = false
    ∧ (filter_data dfNoCountry ["PL"]).2 = [] := by
  refine ⟨?_, ?_, ?_⟩ <;> rfl

/-- Claim C6 amended: for every frame whose schema lacks the filter column
`country`, `filter_data` fails — it raises the `AttributeError` from the
`clients_df.country` attribute access (which bypasses the
`AnalysisException`/`FilterError` handler, so no error is logged there)
rather than returning a dataset. -/
theorem C6_missing_country_fails (df : DataFrame) (V : List String)
    (h : "country" ∉ df.columns) :
    filter_data df V = (.error (.attributeError noCountryAttrMsg), []) := by
  have hidx : df.colIdx "country" = none := by
    rw [DataFrame.colIdx, List.findIdx?_eq_none_iff]
    intro x hx
    cases hxc : x == "country" with
    | false => rfl
    | true => exact absurd ((eq_of_beq hxc) ▸ hx) h
  simp [filter_data, hidx]

/-- Witness for C6's amended theorem. -/
theorem C6_witness :
    "country" ∉ dfNoCountry.columns
    ∧ filter_data dfNoCountry ["PL"]
        = (.error (.attributeError noCountryAttrMsg), []) :=
  ⟨by decide, C6_missing_country_fails dfNoCountry ["PL"] (by decide)⟩

/-- Claim C1: when the frame has a `country` column (resolved at position
`i`), `filter_data` returns, without error and without error logs, exactly
the rows whose `country` value is an element of the country list; with the
empty list it keeps no rows. -/
theorem C1_filter_membership (df : DataFrame) (V : List String) (i : Nat)
    (h : df.colIdx "country" = some i) :
    filter_data df V =
      (.ok { columns := df.columns,
             rows := df.rows.filter
               (fun r => decide (cell r i ∈ V.map Value.strV)) }, [])
    ∧ (V = [] → (filter_data df V).1 = .ok { columns := df.columns, rows := [] }) := by
  have hfun : (fun r => Value.isinB (cell r i) (V.map Value.strV))
      = (fun r => decide (cell r i ∈ V.map Value.strV)) :=
    funext (fun r => isinB_strV (cell r i) V)
  have hmain : filter_data df V =
      (.ok { columns := df.columns,
             rows := df.rows.filter
               (fun r => decide (cell r i ∈ V.map Value.strV)) }, []) := by
    simp [filter_data, h, hfun]
  refine ⟨hmain, fun hV => ?_⟩
  subst hV
  rw [hmain]
  simp

/-- Witness for C1. -/
theorem C1_witness :
    dfClients.colIdx "country" = some 1
    ∧ (filter_data dfClients ["PL"] =
        (.ok { columns := dfClients.columns,
               rows := dfClients.rows.filter
                 (fun r => decide (cell r 1 ∈ (["PL"].map Value.strV))) }, [])
       ∧ (["PL"] = ([] : List String) →
          (filter_data dfClients ["PL"]).1
            = .ok { columns := dfClients.columns, rows := [] })) :=
  ⟨by decide, C1_filter_membership dfClients ["PL"] 1 (by decide)⟩

/-- Two values SQL-equal to the same value are equal (SQL equality never
holds against NULL). -/
theorem sqlEq_right_unique {v x y : Value} (hx : Value.sqlEq v x = true)
    (hy : Value.sqlEq v y = true) : x = y := by
  cases v <;> cases x <;> cases y <;> simp_all [Value.sqlEq]

/-- Symmetric variant of `sqlEq_right_unique`. -/
theorem sqlEq_left_unique {x y v : Value} (hx : Value.sqlEq x v = true)
    (hy : Value.sqlEq y v = true) : x = y := by
  cases v <;> cases x <;> cases y <;> simp_all [Value.sqlEq]

/-- A filter whose kept elements all agree on a pairwise-distinct key keeps
at most one element. -/
theorem length_filter_le_one_of_key {α : Type} (p : α → Bool) (key : α → Value)
    (l : List α) (hpw : l.Pairwise (fun a b => key a ≠ key b))
    (huniq : ∀ a b, p a = true → p b = true → key a = key b) :
    (l.filter p).length ≤ 1 := by
  have hp2 : (l.filter p).Pairwise (fun a b => key a ≠ key b) := hpw.filter p
  rcases hf : l.filter p with - | ⟨a, rest⟩
  · simp
  · rcases rest with - | ⟨b, t⟩
    · simp
    · exfalso
      rw [hf] at hp2
      have hab : key a ≠ key b := (List.pairwise_cons.mp hp2).1 b (by simp)
      have haf : a ∈ l.filter p := by rw [hf]; simp
      have hbf : b ∈ l.filter p := by rw [hf]; simp
      exact hab (huniq a b (List.of_mem_filter haf) (List.of_mem_filter hbf))

/-- Sums of pointwise sums split. -/
theorem sum_map_add_nat {α : Type} (l : List α) (f g : α → Nat) :
    (l.map (fun x => f x + g x)).sum = (l.map f).sum + (l.map g).sum := by
  induction l with
  | nil => rfl
  | cons a t ih =>
      simp only [List.map_cons, List.sum_cons, ih]
      omega

/-- Summing the indicator of a predicate counts the kept elements. -/
theorem sum_indicator_eq_length_filter {α : Type} (l : List α) (q : α → Bool) :
    (l.map (fun x => if q x then 1 else 0)).sum = (l.filter q).length := by
  induction l with
  | nil => rfl
  | cons a t ih =>
      cases h : q a with
      | true => simp [List.filter_cons, h, ih]; omega
      | false => simp [List.filter_cons, h, ih]

/-- Exchanging the order of a double count: summing, over the left rows,
the matching right rows equals summing, over the right rows, the matching
left rows. -/
theorem sum_lengths_filter_comm {α β : Type} (ls : List α) (rs : List β)
    (p : α → β → Bool) :
    (ls.map (fun l => (rs.filter (fun r => p l r)).length)).sum
      = (rs.map (fun r => (ls.filter (fun l => p l r)).length)).sum := by
  induction ls with
  | nil => simp
  | cons a t ih =>
      have hsplit : ∀ r, ((a :: t).filter (fun l => p l r)).length
          = (if p a r then 1 else 0) + (t.filter (fun l => p l r)).length := by
        intro r
        by_cases h : p a r <;> simp [List.filter_cons, h] <;> omega
      calc ((a :: t).map (fun l => (rs.filter (fun r => p l r)).length)).sum
          = (rs.filter (fun r => p a r)).length
            + (t.map (fun l => (rs.filter (fun r => p l r)).length)).sum := by
              simp
        _ = (rs.map (fun r => if p a r then 1 else 0)).sum
            + (rs.map (fun r => (t.filter (fun l => p l r)).length)).sum := by
              rw [sum_indicator_eq_length_filter, ih]
        _ = (rs.map (fun r => (if p a r then 1 else 0)
              + (t.filter (fun l => p l r)).length)).sum :=
              (sum_map_add_nat rs _ _).symm
        _ = (rs.map (fun r => ((a :: t).filter (fun l => p l r)).length)).sum := by
              simp only [hsplit]

/-- Claim C2: with `id` resolving at position `i` in `L` and `j` in `R`,
`join_datasets` succeeds without error logs; the output schema is `L`'s
columns followed by `R`'s columns minus its `id`; the output rows are
exactly the combinations of an `L` row and an `R` row with SQL-equal `id`
(the right `id` cell removed); and when `id` values are pairwise distinct
on both sides the row count is at most `min |L| |R|`. -/
theorem C2_join_inner (L R : DataFrame) (i j : Nat)
    (hi : L.colIdx "id" = some i) (hj : R.colIdx "id" = some j) :
    ∃ J, join_datasets L R = (.ok J, [])
      ∧ J.columns = L.columns ++ R.columns.eraseIdx j
      ∧ (∀ row, row ∈ J.rows ↔
          ∃ l, l ∈ L.rows ∧ ∃ r, r ∈ R.rows ∧
            Value.sqlEq (cell l i) (cell r j) = true ∧ row = l ++ r.eraseIdx j)
      ∧ (L.rows.Pairwise (fun r1 r2 => cell r1 i ≠ cell r2 i) →
         R.rows.Pairwise (fun r1 r2 => cell r1 j ≠ cell r2 j) →
         J.rows.length ≤ min L.rows.length R.rows.length) := by
  refine ⟨{ columns := L.columns ++ R.columns.eraseIdx j,
            rows := L.rows.flatMap (fun l =>
              (R.rows.filter (fun r => Value.sqlEq (cell l i) (cell r j))).map
                (fun r => l ++ r.eraseIdx j)) }, ?_, rfl, ?_, ?_⟩
  · simp [join_datasets, hi, hj]
  · intro row
    simp only [List.mem_flatMap, List.mem_map, List.mem_filter]
    constructor
    · rintro ⟨l, hl, r, ⟨hr, hp⟩, hrow⟩
      exact ⟨l, hl, r, hr, hp, hrow.symm⟩
    · rintro ⟨l, hl, r, hr, hp, hrow⟩
      exact ⟨l, hl, r, ⟨hr, hp⟩, hrow.symm⟩
  · intro hL hR
    have hlen : (L.rows.flatMap (fun l =>
        (R.rows.filter (fun r => Value.sqlEq (cell l i) (cell r j))).map
          (fun r => l ++ r.eraseIdx j))).length
        = (L.rows.map (fun l =>
            (R.rows.filter (fun r => Value.sqlEq (cell l i) (cell r j))).length)).sum := by
      rw [List.length_flatMap]
      simp only [Function.comp_def, List.length_map]
    show (L.rows.flatMap _).length ≤ _
    rw [hlen]
    refine Nat.le_min.mpr ⟨?_, ?_⟩
    · have hbound : ∀ x ∈ L.rows.map (fun l =>
          (R.rows.filter (fun r => Value.sqlEq (cell l i) (cell r j))).length),
          x ≤ 1 := by
        intro x hx
        obtain ⟨l, _, rfl⟩ := List.mem_map.mp hx
        exact length_filter_le_one_of_key _ (fun r => cell r j) R.rows hR
          (fun a b hpa hpb => sqlEq_right_unique hpa hpb)
      calc (L.rows.map (fun l =>
            (R.rows.filter (fun r => Value.sqlEq (cell l i) (cell r j))).length)).sum
          ≤ (L.rows.map (fun l =>
            (R.rows.filter (fun r => Value.sqlEq (cell l i) (cell r j))).length)).length • 1 :=
            List.sum_le_card_nsmul _ 1 hbound
        _ = L.rows.length := by simp
    · rw [sum_lengths_filter_comm]
      have hbound : ∀ x ∈ R.rows.map (fun r =>
          (L.rows.filter (fun l => Value.sqlEq (cell l i) (cell r j))).length),
          x ≤ 1 := by
        intro x hx
        obtain ⟨r, _, rfl⟩ := List.mem_map.mp hx
        exact length_filter_le_one_of_key _ (fun l => cell l i) L.rows hL
          (fun a b hpa hpb => sqlEq_left_unique hpa hpb)
      calc (R.rows.map (fun r =>
            (L.rows.filter (fun l => Value.sqlEq (cell l i) (cell r j))).length)).sum
          ≤ (R.rows.map (fun r =>
            (L.rows.filter (fun l => Value.sqlEq (cell l i) (cell r j))).length)).length • 1 :=
            List.sum_le_card_nsmul _ 1 hbound
        _ = R.rows.length := by simp

/-- Witness for C2. -/
theorem C2_witness :
    dfClients.colIdx "id" = some 0 ∧ dfFinancials.colIdx "id" = some 0
    ∧ ∃ J, join_datasets dfClients dfFinancials = (.ok J, [])
      ∧ J.columns = dfClients.columns ++ dfFinancials.columns.eraseIdx 0
      ∧ (∀ row, row ∈ J.rows ↔
          ∃ l, l ∈ dfClients.rows ∧ ∃ r, r ∈ dfFinancials.rows ∧
            Value.sqlEq (cell l 0) (cell r 0) = true ∧ row = l ++ r.eraseIdx 0)
      ∧ (dfClients.rows.Pairwise (fun r1 r2 => cell r1 0 ≠ cell r2 0) →
         dfFinancials.rows.Pairwise (fun r1 r2 => cell r1 0 ≠ cell r2 0) →
         J.rows.length ≤ min dfClients.rows.length dfFinancials.rows.length) :=
  ⟨by decide, by decide,
   C2_join_inner dfClients dfFinancials 0 0 (by decide) (by decide)⟩

/-- The world of the end-to-end run used for C3: both input files exist,
no column selection, no renames, so the renamed result still has its `id`
column and `process_data` takes the `drop("id", axis=1)` branch. -/
def world3 : World :=
  ⟨[("clients.csv", dfClients), ("financials.csv", dfFinancials)],
   none, none, []⟩

/-- Evaluation of the code at C3's failing input: a pipeline run whose
renamed result contains an `id` column does not write an id-less output
file; `result_data.drop("id", axis=1)` raises `TypeError` (pyspark's
`drop` accepts no `axis` keyword), the orchestrator's catch-all wraps it
as `Unexpected error`, and nothing is written. -/
theorem C3_drop_axis_type_error :
    (process_data world3 "clients.csv" "financials.csv" ["PL"]).1
      = .error (.generic ("Unexpected error: " ++ dropAxisTypeErrorMsg))
    ∧ (process_data world3 "clients.csv" "financials.csv" ["PL"]).2.writes = []
    ∧ (process_data world3 "clients.csv" "financials.csv" ["PL"]).2.errorLogs
      = ["Unexpected error: " ++ dropAxisTypeErrorMsg] := by
  refine ⟨?_, ?_, ?_⟩ <;> rfl

/-- The world of the C5 scenario: no file exists, so reading the clients
file fails. -/
def world5 : World := ⟨[], none, none, []⟩

/-- Counterexample to claim C5 as stated: with a missing input file the
error is logged twice — once by `read_csv_file` and once more by
`process_data`'s catch-all — not exactly once. -/
theorem C5_counterexample :
    (process_data world5 "missing.csv" "fin.csv" []).2.errorLogs.length = 2
    ∧ ¬ (process_data world5 "missing.csv" "fin.csv" []).2.errorLogs.length = 1 := by
  refine ⟨rfl, ?_⟩
  intro hcontra
  simp [process_data, pipeline_body, read_csv_file, world5, lookupFile] at hcontra

/-- Error message with which `read_csv_file` wraps and logs a missing
clients file, exactly as the code concatenates it. -/
def clientsReadErrMsg (cf : String) : String :=
  "Error reading " ++ "Clients" ++ " file: " ++ ("Path does not exist: " ++ cf)

/-- Claim C5 amended: when the clients input path does not exist, the
reader raises the wrapped read error (the spec's `DataReadError`), which
the orchestrator re-wraps as `Unexpected error`; no output file is
written, and the error is logged twice — once by `read_csv_file` and once
by `process_data`'s catch-all. -/
theorem C5_missing_input_logged_twice (w : World) (cf ff : String)
    (cs : List String) (h : lookupFile w cf = none) :
    (process_data w cf ff cs).1
      = .error (.generic ("Unexpected error: " ++ clientsReadErrMsg cf))
    ∧ (process_data w cf ff cs).2.writes = []
    ∧ (process_data w cf ff cs).2.errorLogs
        = [clientsReadErrMsg cf, "Unexpected error: " ++ clientsReadErrMsg cf]
    ∧ (process_data w cf ff cs).2.errorLogs.length = 2 := by
  have hread : read_csv_file w cf "Clients" (w.clients_columns.getD [])
      = (.error (.generic (clientsReadErrMsg cf)), [clientsReadErrMsg cf]) := by
    simp [read_csv_file, h, PyError.msg, clientsReadErrMsg]
  have hp : pipeline_body w cf ff cs
      = (.error (.generic (clientsReadErrMsg cf)), [clientsReadErrMsg cf]) := by
    simp [pipeline_body, hread]
  refine ⟨?_, ?_, ?_, ?_⟩ <;> simp [process_data, hp, PyError.msg]

/-- Witness for C5's amended theorem. -/
theorem C5_witness :
    lookupFile world5 "missing.csv" = none
    ∧ ((process_data world5 "missing.csv" "fin.csv" []).1
        = .error (.generic ("Unexpected error: " ++ clientsReadErrMsg "missing.csv"))
       ∧ (process_data world5 "missing.csv" "fin.csv" []).2.writes = []
       ∧ (process_data world5 "missing.csv" "fin.csv" []).2.errorLogs
          = [clientsReadErrMsg "missing.csv",
             "Unexpected error: " ++ clientsReadErrMsg "missing.csv"]
       ∧ (process_data world5 "missing.csv" "fin.csv" []).2.errorLogs.length = 2) :=
  ⟨rfl, C5_missing_input_logged_twice world5 "missing.csv" "fin.csv" [] rfl⟩

end PysparkApp
